import Mathlib

/-!
Verification of the kg-navigation core: the knowledge-graph reasoning layer
(knowledge_graph.py together with its caller KgReasoning.get_decision in
reckless_drive.py and the name maps in obstacles.py) and the lane-change
controller (custom_controller.py), shallowly embedded in Lean.

Embedding conventions:
* RDF URIs are represented by their local names (the code itself strips the
  namespace with str(...).split("/")[-1] before comparing or returning them).
* The rdflib Graph is a triple store; only the three relation kinds the
  queried code paths touch are kept as fields, plus the moreImportantThan
  edges that prepare_base_kg.py also asserts (never queried by the code).
* Fallible Python code returns Except PyError; a Python function that can
  fall off its end returns Option.
* Floats are idealised as rationals.  math.sqrt, math.atan2 and math.degrees
  are calls into Python's math library, an external collaborator, and are
  modelled as function parameters, exactly like the CARLA map collaborator
  (spec section 6 defines the map interface waypointAhead(location, distance)
  as total).
-/

/-- Errors the embedded Python code paths can raise. -/
inductive PyError where
  | attributeError : PyError
  | valueError : PyError
deriving DecidableEq

/-- The triple store behind class KG (knowledge_graph.py): rdf:type triples
(instance, class), rdfs:subClassOf triples (class, superclass),
ex:requiresAction triples (class, behavior) and ex:moreImportantThan triples
(class, class).  The last relation is asserted by prepare_base_kg.py but never
queried by the code. -/
structure KG where
  type_of : List (String × String)
  subclass_of : List (String × String)
  requires_action : List (String × String)
  more_important : List (String × String)

/-- All classes directly asserted for an instance: the solutions of the
SPARQL pattern `ex:inst a ?type`. -/
def typesOf (kg : KG) (inst : String) : List String :=
  (kg.type_of.filter (fun t => t.1 = inst)).map (·.2)

/-- Direct superclasses of a class: solutions of `?c rdfs:subClassOf ?p`. -/
def subclassParents (kg : KG) (c : String) : List String :=
  (kg.subclass_of.filter (fun e => e.1 = c)).map (·.2)

/-- One expansion step of the reflexive-transitive closure. -/
def closureStep (kg : KG) (cs : List String) : List String :=
  (cs ++ cs.flatMap (subclassParents kg)).dedup

/-- The solutions of `?c rdfs:subClassOf* ?p`: the reflexive-transitive
closure over subclass edges.  A shortest subclass path traverses each edge at
most once, so iterating one step per edge (plus the reflexive start) reaches
the fixpoint. -/
def ancestors (kg : KG) (c : String) : List String :=
  (closureStep kg)^[kg.subclass_of.length + 1] [c]

/-- Behaviors directly declared on a class: `?p ex:requiresAction ?b`. -/
def actionsOf (kg : KG) (p : String) : List String :=
  (kg.requires_action.filter (fun r => r.1 = p)).map (·.2)

/-- The rows of the behavior query in KG.get_behavior_for_instance and in
KG.sort_instances_by_importance (knowledge_graph.py lines 24-29 and 56-61):
`ex:inst a ?type . ?type rdfs:subClassOf* ?p . ?p ex:requiresAction ?b`. -/
def behaviorRows (kg : KG) (inst : String) : List String :=
  (typesOf kg inst).flatMap (fun t => (ancestors kg t).flatMap (fun p => actionsOf kg p))

/-- KG.get_behavior_for_instance (knowledge_graph.py lines 23-33): returns the
first row's behavior, or Python None (here: none) when the query has no rows.
SPARQL row order is unspecified; on the deployed graph every typed instance
has exactly one row, so taking the head is faithful there. -/
def get_behavior_for_instance (kg : KG) (inst : String) : Option String :=
  (behaviorRows kg inst).head?

/-- The behavior_importance dictionary lookup with default 0
(knowledge_graph.py lines 43-48 and 70). -/
def behaviorImportance (b : String) : Nat :=
  if b = "BehaviorProceed" then 1
  else if b = "BehaviorAvoid" then 2
  else if b = "BehaviorHonkAndWait" then 3
  else if b = "BehaviorStop" then 4
  else 0

/-- get_importance_score (knowledge_graph.py lines 50-87): behavior priority
of the first behavior row (0 when there is none), paired with the number of
distinct ancestor classes (the COUNT(DISTINCT ?parentClass) query). -/
def get_importance_score (kg : KG) (inst : String) : Nat × Nat :=
  let behavior_priority :=
    match (behaviorRows kg inst).head? with
    | some b => behaviorImportance b
    | none => 0
  let hierarchy_depth := ((typesOf kg inst).flatMap (fun t => ancestors kg t)).dedup.length
  (behavior_priority, hierarchy_depth)

/-- Python's tuple comparison on the (priority, depth) scores: lexicographic. -/
def pairLe (a b : Nat × Nat) : Prop :=
  a.1 < b.1 ∨ (a.1 = b.1 ∧ a.2 ≤ b.2)

instance (a b : Nat × Nat) : Decidable (pairLe a b) :=
  inferInstanceAs (Decidable (a.1 < b.1 ∨ (a.1 = b.1 ∧ a.2 ≤ b.2)))

/-- Stable insertion of one element into an ascending list: the new element
goes in front of the first element whose key is not smaller, so elements that
occurred earlier in the input stay in front of equal-keyed later ones. -/
def scoreInsert (key : String → Nat × Nat) (x : String) : List String → List String
  | [] => [x]
  | y :: ys => if pairLe (key x) (key y) then x :: y :: ys else y :: scoreInsert key x ys

/-- Stable ascending sort by key.  Python's sorted(list, key=...) is documented
to be exactly the stable ascending sort, and the stable ascending sort of a
list is unique, so this insertion sort is extensionally the same function. -/
def scoreSort (key : String → Nat × Nat) : List String → List String
  | [] => []
  | x :: xs => scoreInsert key x (scoreSort key xs)

/-- KG.sort_instances_by_importance (knowledge_graph.py lines 35-93):
sorted(instances, key=get_importance_score), least important first. -/
def sort_instances_by_importance (kg : KG) (instances : List String) : List String :=
  scoreSort (get_importance_score kg) instances

/-- The deployed knowledge graph: the triples that prepare_base_kg.py writes
to base_kg.ttl, which KG() loads at start-up. -/
def baseKG : KG where
  type_of :=
    [("DetectedPerson", "Person"), ("DetectedBag", "PlasticBag"),
     ("DetectedCar", "Car"), ("DetectedBox", "CardboardBox")]
  subclass_of :=
    [("Person", "LivingBeing"), ("Animal", "LivingBeing"),
     ("Bird", "Animal"), ("Dog", "Animal"), ("Cat", "Animal"),
     ("CardboardBox", "HeavyObstacle"), ("Car", "HeavyObstacle"),
     ("Bottle", "LightObstacle"), ("PlasticBag", "LightObstacle")]
  requires_action :=
    [("LivingBeing", "BehaviorAvoid"), ("LightObstacle", "BehaviorProceed"),
     ("HeavyObstacle", "BehaviorAvoid")]
  more_important :=
    [("LivingBeing", "HeavyObstacle"), ("HeavyObstacle", "LightObstacle"),
     ("Person", "Animal")]

def MODE_LEFT : String := "left"

def MODE_STRAIGHT : String := "straight"

def MODE_RIGHT : String := "right"

/-- KG_INSTANCE_MAP.get(name, name) from obstacles.py lines 34-43. -/
def kgInstanceMapGet (name : String) : String :=
  if name = "person" then "DetectedPerson"
  else if name = "car" then "DetectedCar"
  else if name = "box" then "DetectedBox"
  else if name = "cat" then "DetectedCat"
  else if name = "dog" then "DetectedDog"
  else if name = "bird" then "DetectedBird"
  else if name = "bottle" then "DetectedBottle"
  else if name = "bag" then "DetectedBag"
  else name

/-- KgReasoning.get_decision (reckless_drive.py lines 24-61).  The slots are
left, center, right.  Note on the final branch: line 48 calls
self.kg.get_instances_sorted_by_importance, but class KG defines that method
under the name sort_instances_by_importance (knowledge_graph.py line 35), so
Python raises AttributeError there and lines 49-61 are unreachable. -/
def get_decision (kg : KG) (obstacles : List String) : Except PyError (String × Bool) :=
  let kg_instances := obstacles.map kgInstanceMapGet
  let behaviors := kg_instances.map (get_behavior_for_instance kg)
  if 3 ≤ behaviors.length ∧ behaviors.getD 1 none = some "BehaviorProceed" then
    .ok (MODE_STRAIGHT, false)
  else if 3 ≤ behaviors.length ∧ behaviors.getD 0 none = some "BehaviorProceed" then
    .ok (MODE_LEFT, false)
  else if 3 ≤ behaviors.length ∧ behaviors.getD 2 none = some "BehaviorProceed" then
    .ok (MODE_RIGHT, false)
  else if kg_instances.dedup.length = 1 then
    .ok (MODE_STRAIGHT, true)
  else
    .error .attributeError

/-- A CARLA 3-d vector or location. -/
structure Vector3D where
  x : ℚ
  y : ℚ
  z : ℚ
deriving DecidableEq

/-- The part of a CARLA transform the controller reads: location and yaw. -/
structure VehicleTransform where
  location : Vector3D
  yaw : ℚ

/-- The part of a CARLA waypoint the controller reads: its transform's
location and right-hand lateral vector. -/
structure CarlaWaypoint where
  location : Vector3D
  right_vector : Vector3D

/-- The map collaborator: waypointAhead(location, distance), the total
interface of spec section 6.  It stands for the call chain
self._map.get_waypoint(loc).next(lookahead)[0] of custom_controller.py
lines 58-60 together with .transform.location / .get_right_vector(). -/
abbrev CarlaMap := Vector3D → ℚ → CarlaWaypoint

/-- carla.VehicleControl restricted to the fields the controller sets. -/
structure VehicleControl where
  throttle : ℚ
  steer : ℚ
  brake : ℚ
deriving DecidableEq

/-- Python's math library, an external collaborator of the controller. -/
structure PyMathLib where
  sqrt : ℚ → ℚ
  atan2 : ℚ → ℚ → ℚ
  degrees : ℚ → ℚ

/-- The mutable per-vehicle state of LaneChangeController
(custom_controller.py lines 17-19); the vehicle/world/map handles are
external collaborators, not state. -/
structure ControllerState where
  lane_width : ℚ
  target_offset : ℚ
  mode : String
deriving DecidableEq

/-- LaneChangeController.__init__ (custom_controller.py lines 11-19). -/
def initController : ControllerState where
  lane_width := 3.5
  target_offset := 0
  mode := MODE_STRAIGHT

/-- The numeric offset the argument of set_lane_offset denotes: strings are
dispatched on lines 26-34, anything else is used as a number unchanged. -/
def laneOffsetValue : ℚ ⊕ String → Except PyError ℚ
  | .inr s =>
    if s = MODE_LEFT then .ok (-1)
    else if s = MODE_RIGHT then .ok 1
    else if s = MODE_STRAIGHT then .ok 0
    else .error .valueError
  | .inl n => .ok n

/-- LaneChangeController.set_lane_offset (custom_controller.py lines 21-35):
target_offset = float(offset) * lane_width. -/
def set_lane_offset (s : ControllerState) (offset : ℚ ⊕ String) : Except PyError ControllerState :=
  (laneOffsetValue offset).map (fun v => { s with target_offset := v * s.lane_width })

/-- LaneChangeController.set_mode (custom_controller.py lines 37-47). -/
def set_mode (s : ControllerState) (mode : String) : Except PyError ControllerState :=
  if mode ≠ MODE_LEFT ∧ mode ≠ MODE_STRAIGHT ∧ mode ≠ MODE_RIGHT then
    .error .valueError
  else
    let s1 := { s with mode := mode }
    if mode = MODE_LEFT then set_lane_offset s1 (.inl (-1))
    else if mode = MODE_RIGHT then set_lane_offset s1 (.inl 1)
    else set_lane_offset s1 (.inl 0)

/-- The loop `while error > 180: error -= 360` (custom_controller.py line 76). -/
def wrapDown (x : ℚ) : ℚ :=
  if 180 < x then wrapDown (x - 360) else x
termination_by (⌈x - 180⌉).toNat
decreasing_by
  have h1 : (0 : ℤ) < ⌈x - 180⌉ := by
    apply Int.ceil_pos.mpr; linarith
  have h2 : ⌈x - 360 - 180⌉ = ⌈x - 180⌉ - 360 := by
    have h3 := Int.ceil_sub_int (x - 180) (360 : ℤ)
    rw [show x - 360 - 180 = x - 180 - 360 by ring]
    exact_mod_cast h3
  omega

/-- The loop `while error < -180: error += 360` (custom_controller.py line 77). -/
def wrapUp (x : ℚ) : ℚ :=
  if x < -180 then wrapUp (x + 360) else x
termination_by (⌈-180 - x⌉).toNat
decreasing_by
  have h1 : (0 : ℤ) < ⌈-180 - x⌉ := by
    apply Int.ceil_pos.mpr; linarith
  have h2 : ⌈-180 - (x + 360)⌉ = ⌈-180 - x⌉ - 360 := by
    have h3 := Int.ceil_sub_int (-180 - x) (360 : ℤ)
    rw [show -180 - (x + 360) = -180 - x - 360 by ring]
    exact_mod_cast h3
  omega

/-- The angle normalization of custom_controller.py lines 76-77: both wrap
loops in the order the code runs them. -/
def normalizeAngle (x : ℚ) : ℚ :=
  wrapUp (wrapDown x)

/-- LaneChangeController.run_step (custom_controller.py lines 49-90).  The
vehicle handle's get_velocity/get_location/get_transform reads are the
velocity and vehicle_tf inputs (get_location and get_transform().location are
the same vehicle position). -/
def run_step (s : ControllerState) (pymath : PyMathLib) (world_map : CarlaMap)
    (velocity : Vector3D) (vehicle_tf : VehicleTransform)
    (target_speed : ℚ) (emergency_brake : Bool) : ControllerState × VehicleControl :=
  if emergency_brake then
    (s, { throttle := 0, steer := 0, brake := 1 })
  else
    let speed := 3.6 * pymath.sqrt (velocity.x ^ 2 + velocity.y ^ 2 + velocity.z ^ 2)
    let lookahead := max 8.0 (speed / 3.6)
    let target_wp := world_map vehicle_tf.location lookahead
    let target_loc :=
      if s.target_offset ≠ 0 then
        { x := target_wp.location.x + target_wp.right_vector.x * s.target_offset,
          y := target_wp.location.y + target_wp.right_vector.y * s.target_offset,
          z := target_wp.location.z : Vector3D }
      else target_wp.location
    let dx := target_loc.x - vehicle_tf.location.x
    let dy := target_loc.y - vehicle_tf.location.y
    let target_angle := pymath.degrees (pymath.atan2 dy dx)
    let error := normalizeAngle (target_angle - vehicle_tf.yaw)
    let steer := max (-1) (min 1 (error / 60))
    let speed_error := target_speed - speed
    if 0 < speed_error then
      (s, { throttle := min 1 (speed_error / 30), steer := steer, brake := 0 })
    else
      (s, { throttle := 0, steer := steer, brake := min 1 (-speed_error / 30) })

/-- The controller state invariant of the spec's data model section. -/
def ControllerInv (s : ControllerState) : Prop :=
  ∃ v : ℚ, (v = -1 ∨ v = 0 ∨ v = 1) ∧ s.target_offset = v * s.lane_width

/-- The maneuver arguments the spec says set_lane_offset accepts. -/
def ValidManeuverArg : ℚ ⊕ String → Prop
  | .inl n => n = -1 ∨ n = 0 ∨ n = 1
  | .inr s => s = MODE_LEFT ∨ s = MODE_STRAIGHT ∨ s = MODE_RIGHT

-- quick sanity examples (evaluation of the embedding on concrete inputs)
example : get_behavior_for_instance baseKG "DetectedPerson" = some "BehaviorAvoid" := rfl
example : get_behavior_for_instance baseKG "DetectedBag" = some "BehaviorProceed" := rfl
example : get_behavior_for_instance baseKG "DetectedCat" = none := rfl
example : get_decision baseKG ["person", "car", "box"] = .error .attributeError := rfl
example : get_decision baseKG ["person", "bag", "car"] = .ok (MODE_STRAIGHT, false) := rfl
example : get_importance_score baseKG "DetectedPerson" = (2, 2) := rfl
example : sort_instances_by_importance baseKG ["DetectedPerson", "DetectedBag"] =
    ["DetectedBag", "DetectedPerson"] := rfl

-- ------------------------------------------------------------------
-- Helper lemmas
-- ------------------------------------------------------------------

theorem wrapDown_le (x : ℚ) : wrapDown x ≤ 180 := by
  induction x using wrapDown.induct with
  | case1 x h ih => rw [wrapDown, if_pos h]; exact ih
  | case2 x h => rw [wrapDown, if_neg h]; linarith

theorem wrapUp_ge (x : ℚ) : -180 ≤ wrapUp x := by
  induction x using wrapUp.induct with
  | case1 x h ih => rw [wrapUp, if_pos h]; exact ih
  | case2 x h => rw [wrapUp, if_neg h]; linarith

theorem wrapUp_le (x : ℚ) : x ≤ 180 → wrapUp x ≤ 180 := by
  induction x using wrapUp.induct with
  | case1 x h ih =>
    intro _
    rw [wrapUp, if_pos h]
    exact ih (by linarith)
  | case2 x h =>
    intro hx
    rw [wrapUp, if_neg h]
    exact hx

-- ------------------------------------------------------------------
-- Claim theorems
-- ------------------------------------------------------------------

/-- C1 (code bug, evaluation at the failing input): on the observation
(person, car, box) no lane's behavior is BehaviorProceed and the three KG
instances are distinct, so get_decision reaches its ranking branch; there it
calls KG.get_instances_sorted_by_importance, a method class KG does not have
(it is named sort_instances_by_importance), and Python raises AttributeError
instead of ranking the instances and choosing the least-important slot. -/
theorem c1_ranking_branch_raises :
    get_decision baseKG ["person", "car", "box"] = .error .attributeError := rfl

/-- C4 counterexample: the claim puts every normalized angle in the half-open
interval (-180, 180], but the input -180 (its own fixed point) is returned
unchanged, and -180 is not greater than -180.  The interval is closed. -/
theorem c4_counterexample :
    normalizeAngle (-180) = -180 ∧ ¬ ((-180 : ℚ) < normalizeAngle (-180)) := by
  have h : normalizeAngle (-180) = -180 := by
    show wrapUp (wrapDown (-180)) = -180
    rw [wrapDown]
    norm_num
    rw [wrapUp]
    norm_num
  refine ⟨h, ?_⟩
  rw [h]
  exact lt_irrefl _

/-- C4 (amended): the controller's angle normalization is total (it is a
terminating function) and for every rational input yields a value in the
closed interval [-180, 180]; normalizeAngle 270 = -90 and
normalizeAngle (-200) = 160. -/
theorem c4_normalizeAngle_range :
    (∀ x : ℚ, -180 ≤ normalizeAngle x ∧ normalizeAngle x ≤ 180) ∧
    normalizeAngle 270 = -90 ∧ normalizeAngle (-200) = 160 := by
  refine ⟨fun x => ⟨wrapUp_ge _, wrapUp_le _ (wrapDown_le x)⟩, ?_, ?_⟩
  · show wrapUp (wrapDown 270) = -90
    rw [wrapDown]
    norm_num
    rw [wrapDown]
    norm_num
    rw [wrapUp]
    norm_num
  · show wrapUp (wrapDown (-200)) = 160
    rw [wrapDown]
    norm_num
    rw [wrapUp]
    norm_num
    rw [wrapUp]
    norm_num

/-- C5 counterexample: DetectedCat has no asserted class in the deployed
graph, and get_behavior_for_instance returns the ordinary value none (Python
None, the function falling off its end) for it rather than raising any
error: the code has no UnknownInstance failure path at all. -/
theorem c5_counterexample :
    typesOf baseKG "DetectedCat" = [] ∧
    get_behavior_for_instance baseKG "DetectedCat" = none := ⟨rfl, rfl⟩

/-- C5 (amended): for every instance with no asserted class (no rdf:type
triple), get_behavior_for_instance returns None instead of failing. -/
theorem c5_no_class_returns_none (kg : KG) (inst : String)
    (h : typesOf kg inst = []) :
    get_behavior_for_instance kg inst = none := by
  unfold get_behavior_for_instance behaviorRows
  rw [h]
  rfl

theorem c5_witness : get_behavior_for_instance baseKG "DetectedBottle" = none :=
  c5_no_class_returns_none baseKG "DetectedBottle" rfl

/-- C7: with emergency_brake set, run_step returns exactly
throttle 0, steer 0, brake 1, for every pose, velocity and target speed
(and leaves the controller state alone). -/
theorem c7_emergency_brake_full_stop (s : ControllerState) (pymath : PyMathLib)
    (world_map : CarlaMap) (velocity : Vector3D) (vehicle_tf : VehicleTransform)
    (target_speed : ℚ) :
    run_step s pymath world_map velocity vehicle_tf target_speed true =
      (s, { throttle := 0, steer := 0, brake := 1 }) := rfl

/-- C10: run_step never modifies the controller state: the state component of
its result is the input state unchanged (lane_width, target_offset and mode
all keep their values), for every input including the emergency-brake flag. -/
theorem c10_run_step_state_unchanged (s : ControllerState) (pymath : PyMathLib)
    (world_map : CarlaMap) (velocity : Vector3D) (vehicle_tf : VehicleTransform)
    (target_speed : ℚ) (emergency_brake : Bool) :
    (run_step s pymath world_map velocity vehicle_tf target_speed emergency_brake).1 = s := by
  cases emergency_brake with
  | true => rfl
  | false =>
    unfold run_step
    simp only [Bool.false_eq_true, if_false]
    split <;> rfl

theorem pairLe_refl (a : Nat × Nat) : pairLe a a := Or.inr ⟨rfl, le_refl _⟩

theorem pairLe_total_of_not {a b : Nat × Nat} (h : ¬ pairLe a b) : pairLe b a := by
  unfold pairLe at *
  omega

theorem pairLe_trans {a b c : Nat × Nat} (h1 : pairLe a b) (h2 : pairLe b c) :
    pairLe a c := by
  unfold pairLe at *
  omega

theorem ne_of_not_pairLe {a b : Nat × Nat} (h : ¬ pairLe a b) : a ≠ b :=
  fun hh => h (hh ▸ pairLe_refl a)

theorem scoreInsert_filter (key : String → Nat × Nat) (x : String) (s : Nat × Nat)
    (l : List String) :
    (scoreInsert key x l).filter (fun i => decide (key i = s)) =
      if key x = s then x :: l.filter (fun i => decide (key i = s))
      else l.filter (fun i => decide (key i = s)) := by
  induction l with
  | nil =>
    by_cases hx : key x = s <;> simp [scoreInsert, List.filter, hx]
  | cons y ys ih =>
    by_cases hxy : pairLe (key x) (key y)
    · rw [scoreInsert, if_pos hxy]
      by_cases hx : key x = s <;> simp [List.filter_cons, hx]
    · rw [scoreInsert, if_neg hxy]
      have hne : key x ≠ key y := ne_of_not_pairLe hxy
      by_cases hy : key y = s
      · have hx : ¬ key x = s := fun hh => hne (hh.trans hy.symm)
        simp [List.filter_cons, hy, hx, ih]
      · by_cases hx : key x = s <;> simp [List.filter_cons, hy, hx, ih]

theorem scoreSort_filter (key : String → Nat × Nat) (s : Nat × Nat) (l : List String) :
    (scoreSort key l).filter (fun i => decide (key i = s)) =
      l.filter (fun i => decide (key i = s)) := by
  induction l with
  | nil => rfl
  | cons x xs ih =>
    rw [scoreSort, scoreInsert_filter]
    by_cases hx : key x = s <;> simp [List.filter_cons, hx, ih]

theorem scoreInsert_perm (key : String → Nat × Nat) (x : String) (l : List String) :
    (scoreInsert key x l).Perm (x :: l) := by
  induction l with
  | nil => exact List.Perm.refl _
  | cons y ys ih =>
    rw [scoreInsert]
    by_cases hxy : pairLe (key x) (key y)
    · rw [if_pos hxy]
    · rw [if_neg hxy]
      exact (List.Perm.cons y ih).trans (List.Perm.swap x y ys)

theorem scoreSort_perm (key : String → Nat × Nat) (l : List String) :
    (scoreSort key l).Perm l := by
  induction l with
  | nil => exact List.Perm.refl _
  | cons x xs ih =>
    rw [scoreSort]
    exact (scoreInsert_perm key x (scoreSort key xs)).trans (List.Perm.cons x ih)

theorem scoreInsert_sorted (key : String → Nat × Nat) (x : String) (l : List String)
    (h : l.Pairwise (fun a b => pairLe (key a) (key b))) :
    (scoreInsert key x l).Pairwise (fun a b => pairLe (key a) (key b)) := by
  induction l with
  | nil => simp [scoreInsert]
  | cons y ys ih =>
    rw [scoreInsert]
    rcases List.pairwise_cons.mp h with ⟨hy, hys⟩
    by_cases hxy : pairLe (key x) (key y)
    · rw [if_pos hxy]
      refine List.pairwise_cons.mpr ⟨?_, h⟩
      intro z hz
      rcases List.mem_cons.mp hz with rfl | hz2
      · exact hxy
      · exact pairLe_trans hxy (hy z hz2)
    · rw [if_neg hxy]
      refine List.pairwise_cons.mpr ⟨?_, ih hys⟩
      intro z hz
      rcases List.mem_cons.mp ((scoreInsert_perm key x ys).mem_iff.mp hz) with rfl | hz3
      · exact pairLe_total_of_not hxy
      · exact hy z hz3

theorem scoreSort_sorted (key : String → Nat × Nat) (l : List String) :
    (scoreSort key l).Pairwise (fun a b => pairLe (key a) (key b)) := by
  induction l with
  | nil => simp [scoreSort]
  | cons x xs ih =>
    rw [scoreSort]
    exact scoreInsert_sorted key x _ ih

/-- C9: sort_instances_by_importance is a stable sort: it permutes its input,
orders it ascending by importance score (least important first), and
instances with equal importance scores keep the relative order they had in
the input (the subsequence carrying any fixed score value is unchanged). -/
theorem c9_sort_is_stable (kg : KG) (instances : List String) (s : Nat × Nat) :
    (sort_instances_by_importance kg instances).Perm instances ∧
    (sort_instances_by_importance kg instances).Pairwise
      (fun a b => pairLe (get_importance_score kg a) (get_importance_score kg b)) ∧
    (sort_instances_by_importance kg instances).filter
        (fun i => decide (get_importance_score kg i = s)) =
      instances.filter (fun i => decide (get_importance_score kg i = s)) :=
  ⟨scoreSort_perm _ instances, scoreSort_sorted _ instances, scoreSort_filter _ s instances⟩

theorem getD3_0 (p q r : Option String) : [p, q, r].getD 0 none = p := rfl

theorem getD3_1 (p q r : Option String) : [p, q, r].getD 1 none = q := rfl

theorem getD3_2 (p q r : Option String) : [p, q, r].getD 2 none = r := rfl

/-- C3: on a 3-slot observation (left, center, right), whenever get_decision
returns a decision at all, its brake flag is false exactly when some lane's
behavior resolves to BehaviorProceed and the returned maneuver is that lane's
maneuver; every other returned decision has brake = true. -/
theorem c3_brake_false_iff_proceed (kg : KG) (a b c m : String) (br : Bool)
    (h : get_decision kg [a, b, c] = .ok (m, br)) :
    br = false ↔
      ((get_behavior_for_instance kg (kgInstanceMapGet a) = some "BehaviorProceed" ∧
          m = MODE_LEFT) ∨
       (get_behavior_for_instance kg (kgInstanceMapGet b) = some "BehaviorProceed" ∧
          m = MODE_STRAIGHT) ∨
       (get_behavior_for_instance kg (kgInstanceMapGet c) = some "BehaviorProceed" ∧
          m = MODE_RIGHT)) := by
  simp only [get_decision, List.map_cons, List.map_nil] at h
  split_ifs at h with h1 h2 h3 h4
  · simp only [Except.ok.injEq, Prod.mk.injEq] at h
    obtain ⟨hm, hbr⟩ := h
    subst hm
    subst hbr
    rw [getD3_1] at h1
    exact iff_of_true rfl (Or.inr (Or.inl ⟨h1.2, rfl⟩))
  · simp only [Except.ok.injEq, Prod.mk.injEq] at h
    obtain ⟨hm, hbr⟩ := h
    subst hm
    subst hbr
    rw [getD3_0] at h2
    exact iff_of_true rfl (Or.inl ⟨h2.2, rfl⟩)
  · simp only [Except.ok.injEq, Prod.mk.injEq] at h
    obtain ⟨hm, hbr⟩ := h
    subst hm
    subst hbr
    rw [getD3_2] at h3
    exact iff_of_true rfl (Or.inr (Or.inr ⟨h3.2, rfl⟩))
  · simp only [Except.ok.injEq, Prod.mk.injEq] at h
    obtain ⟨hm, hbr⟩ := h
    subst hm
    subst hbr
    refine iff_of_false (by simp) ?_
    have hlen : 3 ≤ ([get_behavior_for_instance kg (kgInstanceMapGet a),
        get_behavior_for_instance kg (kgInstanceMapGet b),
        get_behavior_for_instance kg (kgInstanceMapGet c)] : List (Option String)).length := by
      simp
    rintro (⟨hp, _⟩ | ⟨hp, _⟩ | ⟨hp, _⟩)
    · exact h2 ⟨hlen, by rw [getD3_0]; exact hp⟩
    · exact h1 ⟨hlen, by rw [getD3_1]; exact hp⟩
    · exact h3 ⟨hlen, by rw [getD3_2]; exact hp⟩

theorem c3_witness :
    (false = false) ↔
      ((get_behavior_for_instance baseKG (kgInstanceMapGet "bottle") = some "BehaviorProceed" ∧
          MODE_STRAIGHT = MODE_LEFT) ∨
       (get_behavior_for_instance baseKG (kgInstanceMapGet "bag") = some "BehaviorProceed" ∧
          MODE_STRAIGHT = MODE_STRAIGHT) ∨
       (get_behavior_for_instance baseKG (kgInstanceMapGet "car") = some "BehaviorProceed" ∧
          MODE_STRAIGHT = MODE_RIGHT)) :=
  c3_brake_false_iff_proceed baseKG "bottle" "bag" "car" MODE_STRAIGHT false rfl

theorem baseKG_typesOf_cases (i cl : String) (h : typesOf baseKG i = [cl]) :
    (i = "DetectedPerson" ∧ cl = "Person") ∨ (i = "DetectedBag" ∧ cl = "PlasticBag") ∨
    (i = "DetectedCar" ∧ cl = "Car") ∨ (i = "DetectedBox" ∧ cl = "CardboardBox") := by
  by_cases h1 : i = "DetectedPerson"
  · subst h1
    rw [show typesOf baseKG "DetectedPerson" = ["Person"] from rfl] at h
    simp only [List.cons.injEq, and_true] at h
    exact Or.inl ⟨rfl, h.symm⟩
  by_cases h2 : i = "DetectedBag"
  · subst h2
    rw [show typesOf baseKG "DetectedBag" = ["PlasticBag"] from rfl] at h
    simp only [List.cons.injEq, and_true] at h
    exact Or.inr (Or.inl ⟨rfl, h.symm⟩)
  by_cases h3 : i = "DetectedCar"
  · subst h3
    rw [show typesOf baseKG "DetectedCar" = ["Car"] from rfl] at h
    simp only [List.cons.injEq, and_true] at h
    exact Or.inr (Or.inr (Or.inl ⟨rfl, h.symm⟩))
  by_cases h4 : i = "DetectedBox"
  · subst h4
    rw [show typesOf baseKG "DetectedBox" = ["CardboardBox"] from rfl] at h
    simp only [List.cons.injEq, and_true] at h
    exact Or.inr (Or.inr (Or.inr ⟨rfl, h.symm⟩))
  exfalso
  have hempty : typesOf baseKG i = [] := by
    simp [typesOf, baseKG, List.filter, Ne.symm h1, Ne.symm h2, Ne.symm h3, Ne.symm h4]
  rw [hempty] at h
  exact List.noConfusion h

theorem baseKG_class_determines_instance (i j cl : String)
    (hi : typesOf baseKG i = [cl]) (hj : typesOf baseKG j = [cl]) : i = j := by
  rcases baseKG_typesOf_cases i cl hi with ⟨hi1, hi2⟩ | ⟨hi1, hi2⟩ | ⟨hi1, hi2⟩ | ⟨hi1, hi2⟩ <;>
    rcases baseKG_typesOf_cases j cl hj with ⟨hj1, hj2⟩ | ⟨hj1, hj2⟩ | ⟨hj1, hj2⟩ | ⟨hj1, hj2⟩ <;>
    subst hi1 <;> subst hj1 <;> first
      | rfl
      | (rw [hi2] at hj2; exact absurd hj2 (by decide))

theorem dedup_triple (x : String) : List.dedup [x, x, x] = [x] := by
  simp

/-- C2 (amended): on the deployed knowledge graph, for every 3-slot lane
observation whose three slots all reference the identical class and in which
no lane resolves to BehaviorProceed, get_decision returns (Straight, true).
(The original claim omitted the no-Proceed condition, which the clear-lane
checks of lines 36-42 take first.) -/
theorem c2_same_class_no_proceed (a b c cl : String)
    (ha : typesOf baseKG (kgInstanceMapGet a) = [cl])
    (hb : typesOf baseKG (kgInstanceMapGet b) = [cl])
    (hc : typesOf baseKG (kgInstanceMapGet c) = [cl])
    (hpa : get_behavior_for_instance baseKG (kgInstanceMapGet a) ≠ some "BehaviorProceed")
    (_hpb : get_behavior_for_instance baseKG (kgInstanceMapGet b) ≠ some "BehaviorProceed")
    (_hpc : get_behavior_for_instance baseKG (kgInstanceMapGet c) ≠ some "BehaviorProceed") :
    get_decision baseKG [a, b, c] = .ok (MODE_STRAIGHT, true) := by
  have hab : kgInstanceMapGet a = kgInstanceMapGet b :=
    baseKG_class_determines_instance _ _ cl ha hb
  have hac : kgInstanceMapGet a = kgInstanceMapGet c :=
    baseKG_class_determines_instance _ _ cl ha hc
  simp only [get_decision, List.map_cons, List.map_nil]
  simp only [← hab, ← hac, getD3_0, getD3_1, getD3_2]
  rw [if_neg (fun hco => hpa hco.2), if_neg (fun hco => hpa hco.2),
    if_neg (fun hco => hpa hco.2), if_pos (by rw [dedup_triple]; rfl)]

theorem c2_witness :
    get_decision baseKG ["person", "person", "person"] = .ok (MODE_STRAIGHT, true) :=
  c2_same_class_no_proceed "person" "person" "person" "Person" rfl rfl rfl
    (by decide) (by decide) (by decide)

/-- C2 counterexample: the three slots bag, bag, bag all reference the
identical class PlasticBag, yet get_decision returns (Straight, false), not
(Straight, true): the clear-lane check fires first because PlasticBag
resolves to BehaviorProceed. -/
theorem c2_counterexample :
    typesOf baseKG (kgInstanceMapGet "bag") = ["PlasticBag"] ∧
    get_decision baseKG ["bag", "bag", "bag"] = .ok (MODE_STRAIGHT, false) ∧
    ((MODE_STRAIGHT, false) : String × Bool) ≠ (MODE_STRAIGHT, true) :=
  ⟨rfl, rfl, by decide⟩

theorem set_lane_offset_valid_inv (s : ControllerState) (x : ℚ ⊕ String)
    (s' : ControllerState) (hv : ValidManeuverArg x)
    (hok : set_lane_offset s x = .ok s') : ControllerInv s' := by
  cases x with
  | inl n =>
    simp only [set_lane_offset, laneOffsetValue, Except.map, Except.ok.injEq] at hok
    subst hok
    exact ⟨n, hv, rfl⟩
  | inr str =>
    rcases hv with hv | hv | hv <;> subst hv <;>
      simp only [set_lane_offset, laneOffsetValue, MODE_LEFT, MODE_STRAIGHT, MODE_RIGHT,
        if_pos, if_neg, Except.map, Except.ok.injEq, String.reduceEq, reduceIte] at hok <;>
      subst hok
    · exact ⟨-1, Or.inl rfl, rfl⟩
    · exact ⟨0, Or.inr (Or.inl rfl), rfl⟩
    · exact ⟨1, Or.inr (Or.inr rfl), rfl⟩

/-- C6 (amended): the invariant targetOffset = v * laneWidth with
v in {-1, 0, 1} holds for the freshly constructed controller and is preserved
by set_mode and by set_lane_offset whenever the argument is one of the values
the spec names (a number in {-1, 0, 1} or a recognized mode symbol); an
unrecognized symbol fails with ValueError.  (The original claim said
set_lane_offset accepts ONLY such arguments; in fact it accepts every number
without validation, see the counterexample.) -/
theorem c6_invariant :
    ControllerInv initController ∧
    (∀ (s : ControllerState) (x : ℚ ⊕ String) (s' : ControllerState),
      ControllerInv s → ValidManeuverArg x → set_lane_offset s x = .ok s' →
        ControllerInv s') ∧
    (∀ (s : ControllerState) (mode : String) (s' : ControllerState),
      ControllerInv s → set_mode s mode = .ok s' → ControllerInv s') ∧
    (∀ (s : ControllerState) (str : String),
      str ≠ MODE_LEFT → str ≠ MODE_STRAIGHT → str ≠ MODE_RIGHT →
        set_lane_offset s (.inr str) = .error .valueError) := by
  refine ⟨⟨0, Or.inr (Or.inl rfl), by norm_num [initController]⟩, ?_, ?_, ?_⟩
  · exact fun s x s' _ hv hok => set_lane_offset_valid_inv s x s' hv hok
  · intro s mode s' _ hok
    by_cases hmode : mode ≠ MODE_LEFT ∧ mode ≠ MODE_STRAIGHT ∧ mode ≠ MODE_RIGHT
    · rw [set_mode, if_pos hmode] at hok
      exact absurd hok (by simp)
    · rw [set_mode, if_neg hmode] at hok
      by_cases hl : mode = MODE_LEFT
      · rw [if_pos hl] at hok
        exact set_lane_offset_valid_inv _ (.inl (-1)) _ (Or.inl rfl) hok
      · rw [if_neg hl] at hok
        by_cases hr : mode = MODE_RIGHT
        · rw [if_pos hr] at hok
          exact set_lane_offset_valid_inv _ (.inl 1) _ (Or.inr (Or.inr rfl)) hok
        · rw [if_neg hr] at hok
          exact set_lane_offset_valid_inv _ (.inl 0) _ (Or.inr (Or.inl rfl)) hok
  · intro s str h1 h2 h3
    simp only [set_lane_offset, laneOffsetValue, if_neg h1, if_neg h2, if_neg h3,
      Except.map]

theorem c6_witness :
    ControllerInv { lane_width := 3.5, target_offset := -3.5, mode := MODE_STRAIGHT } :=
  c6_invariant.2.1 initController (.inr MODE_LEFT)
    { lane_width := 3.5, target_offset := -3.5, mode := MODE_STRAIGHT }
    c6_invariant.1 (Or.inl rfl) (by norm_num [set_lane_offset, laneOffsetValue,
      initController, MODE_LEFT, Except.map])

/-- C6 counterexample: set_lane_offset performs no range validation on
numbers: the out-of-range number 2 is accepted (no InvalidArgument failure)
and drives target_offset to 7, which is not v * laneWidth for any
v in {-1, 0, 1} - so the operation does not preserve the claimed invariant
on all inputs it accepts. -/
theorem c6_counterexample :
    set_lane_offset initController (.inl 2) =
      .ok { lane_width := 3.5, target_offset := 7, mode := MODE_STRAIGHT } ∧
    ¬ ControllerInv { lane_width := 3.5, target_offset := 7, mode := MODE_STRAIGHT } := by
  constructor
  · norm_num [set_lane_offset, laneOffsetValue, initController, Except.map]
  · rintro ⟨v, hv | hv | hv, h⟩ <;> subst hv <;> norm_num at h

/-- C8: run_step is total (it is a function) and for every input its returned
command lies in the clamped ranges: throttle in [0, 1], steer in [-1, 1],
brake in [0, 1]. -/
theorem c8_run_step_output_ranges (s : ControllerState) (pymath : PyMathLib)
    (world_map : CarlaMap) (velocity : Vector3D) (vehicle_tf : VehicleTransform)
    (target_speed : ℚ) (emergency_brake : Bool) :
    0 ≤ (run_step s pymath world_map velocity vehicle_tf target_speed
          emergency_brake).2.throttle ∧
    (run_step s pymath world_map velocity vehicle_tf target_speed
          emergency_brake).2.throttle ≤ 1 ∧
    -1 ≤ (run_step s pymath world_map velocity vehicle_tf target_speed
          emergency_brake).2.steer ∧
    (run_step s pymath world_map velocity vehicle_tf target_speed
          emergency_brake).2.steer ≤ 1 ∧
    0 ≤ (run_step s pymath world_map velocity vehicle_tf target_speed
          emergency_brake).2.brake ∧
    (run_step s pymath world_map velocity vehicle_tf target_speed
          emergency_brake).2.brake ≤ 1 := by
  cases emergency_brake with
  | true =>
    refine ⟨?_, ?_, ?_, ?_, ?_, ?_⟩ <;> norm_num [run_step]
  | false =>
    simp only [run_step, Bool.false_eq_true, if_false]
    split
    · rename_i h
      dsimp only
      refine ⟨le_min (by norm_num) (by linarith), min_le_left _ _, le_max_left _ _,
        max_le (by norm_num) (min_le_left _ _), le_refl 0, by norm_num⟩
    · rename_i h
      push_neg at h
      dsimp only
      refine ⟨le_refl 0, by norm_num, le_max_left _ _,
        max_le (by norm_num) (min_le_left _ _),
        le_min (by norm_num) (by linarith), min_le_left _ _⟩
